import Mathlib

/-!
Shallow embedding of `TCGAMultiOmics/multiomics.py` (class `MultiOmicsData`).

Tables are embedded at the granularity the verified properties observe:

* a modality table (`self.data["GE"]`, ...) is represented by its sample
  index, a `List String` (the row values of a modality table never influence
  which sample identifiers any operation returns);
* the per-sample clinical table `self.data["SAMPLES"]` is a list of
  `(sample identifier, clinical row)` pairs, where a clinical row carries the
  four categorical columns that `load_data` reads
  (`pathologic_stage`, `histologic_subtype`, `predicted_subtype`,
  `tumor_normal`), each an `Option String` with `none` playing NaN;
* the patient table `self.data["PATIENTS"]` is a list of rows holding the
  `bcr_patient_barcode` column, an association list for all other columns,
  and the `predicted_subtype` column (`none` = missing/NaN).

Python methods are embedded as functions `state → result × state` so that
the (absence of) mutation of `self` is part of the model: the returned
state mirrors exactly the assignments to `self` performed by the method.
Methods that can raise return `Except String` results, carrying the Python
exception message.

Pandas semantics embedded for uniquely-keyed indexes (the spec's data model
declares table rows uniquely keyed):
* `Index.join(other, how="inner")` keeps, in left order, each left element
  once per matching right element;
* `DataFrame.reindex(labels)` produces one row per requested label, in
  request order, all-missing when the label is absent;
* `DataFrame.loc[labels, :]` raises a KeyError when a label is absent,
  otherwise returns the matching rows per requested label, in request order.
-/

/-- A table index: the ordered list of sample identifiers keying a table. -/
abbrev Idx := List String

/-- The clinical columns of the SAMPLES table that `load_data` reads. -/
inductive ClinField where
  | pathologic_stage
  | histologic_subtype
  | predicted_subtype
  | tumor_normal
deriving DecidableEq, Repr

/-- Column name of a clinical field, as the Python code spells it. -/
def ClinField.name : ClinField → String
  | .pathologic_stage => "pathologic_stage"
  | .histologic_subtype => "histologic_subtype"
  | .predicted_subtype => "predicted_subtype"
  | .tumor_normal => "tumor_normal"

/-- Resolve a column name to one of the modelled clinical fields. -/
def ClinField.ofName (s : String) : Option ClinField :=
  if s = "pathologic_stage" then some .pathologic_stage
  else if s = "histologic_subtype" then some .histologic_subtype
  else if s = "predicted_subtype" then some .predicted_subtype
  else if s = "tumor_normal" then some .tumor_normal
  else none

/-- All modelled clinical columns, the columns of the SAMPLES table. -/
def allClinFields : List ClinField :=
  [.pathologic_stage, .histologic_subtype, .predicted_subtype, .tumor_normal]

/-- One row of the SAMPLES table; `none` stands for a missing value (NaN). -/
structure Row where
  pathologic_stage : Option String
  histologic_subtype : Option String
  predicted_subtype : Option String
  tumor_normal : Option String
deriving DecidableEq, Repr

/-- Value of a clinical field in a row. -/
def Row.get : Row → ClinField → Option String
  | r, .pathologic_stage => r.pathologic_stage
  | r, .histologic_subtype => r.histologic_subtype
  | r, .predicted_subtype => r.predicted_subtype
  | r, .tumor_normal => r.tumor_normal

/-- The all-missing row produced by `reindex` for an absent label. -/
def emptyRow : Row := ⟨none, none, none, none⟩

/-- One row of the PATIENTS table: the `bcr_patient_barcode` column, every
other pre-existing column as an association list, and the
`predicted_subtype` column (`none` = missing/NaN, also standing for the
column not having been attached yet). -/
structure PatientRow where
  bcr_patient_barcode : String
  others : List (String × String)
  predicted_subtype : Option String
deriving DecidableEq, Repr

/-- The state of a `MultiOmicsData` object: `self.modalities`, the modality
tables of `self.data` (each by its index), the `self.data["SAMPLES"]` table
and the `self.data["PATIENTS"]` table. -/
structure MultiOmicsData where
  modalities : List String
  data : List (String × Idx)
  samples : List (String × Row)
  patients : List PatientRow
deriving DecidableEq

/-- Python dict lookup `d[k]`: raises `KeyError` when the key is absent. -/
def dictGet (d : List (String × Idx)) (k : String) : Except String Idx :=
  match d.lookup k with
  | some v => Except.ok v
  | none => Except.error ("KeyError: " ++ k)

/-- `pandas.Index.join(other, how="inner")` on uniquely-keyed indexes:
keep, in left order, each left element once per matching right element. -/
def join_inner (a b : Idx) : Idx :=
  a.flatMap (fun x => (b.filter (fun y => y = x)).map (fun _ => x))

/-- The `for modality in modalities` loop of `match_samples`: repeatedly
inner-join the running index with each modality table's index. -/
def match_loop (data : List (String × Idx)) : List String → Idx → Except String Idx
  | [], acc => Except.ok acc
  | m :: rest, acc =>
    match dictGet data m with
    | Except.ok idx => match_loop data rest (join_inner acc idx)
    | Except.error e => Except.error e

/-- `MultiOmicsData.match_samples`: start from the index of the first
requested modality's table (`modalities[0]` raises IndexError on an empty
list), then inner-join with every requested modality's index in order.
The method assigns nothing to `self`, so the state component is returned
unchanged. -/
def MultiOmicsData.match_samples (self : MultiOmicsData) (modalities : List String) :
    Except String Idx × MultiOmicsData :=
  (match modalities with
   | [] => Except.error "IndexError: list index out of range"
   | m0 :: _ =>
     match dictGet self.data m0 with
     | Except.ok first => match_loop self.data modalities first
     | Except.error e => Except.error e,
   self)

/- ### Helper lemmas about lookup, join and the matching loop -/

lemma lookup_mem {α : Type} {l : List (String × α)} {k : String} {v : α}
    (h : l.lookup k = some v) : (k, v) ∈ l := by
  induction l with
  | nil => simp [List.lookup] at h
  | cons p rest ih =>
    rw [List.lookup] at h
    cases hk : k == p.1 with
    | true =>
      rw [hk] at h
      simp only [Option.some.injEq] at h
      have hkp : k = p.1 := eq_of_beq hk
      have : (k, v) = p := by
        rw [hkp, ← h]
      rw [this]
      exact List.mem_cons_self p rest
    | false =>
      rw [hk] at h
      right
      exact ih h

lemma dictGet_ok {d : List (String × Idx)} {k : String} {v : Idx}
    (h : d.lookup k = some v) : dictGet d k = Except.ok v := by
  simp [dictGet, h]

lemma dictGet_ok_lookup {d : List (String × Idx)} {k : String} {v : Idx}
    (h : dictGet d k = Except.ok v) : d.lookup k = some v := by
  unfold dictGet at h
  cases hl : d.lookup k with
  | some w => rw [hl] at h; simpa using h
  | none => rw [hl] at h; simp at h

lemma mem_join_inner_left {a b : Idx} {x : String} (h : x ∈ join_inner a b) :
    x ∈ a := by
  unfold join_inner at h
  rw [List.mem_flatMap] at h
  obtain ⟨y, hy, hx⟩ := h
  rw [List.mem_map] at hx
  obtain ⟨z, _, hz⟩ := hx
  rw [← hz]
  exact hy

lemma mem_join_inner_right {a b : Idx} {x : String} (h : x ∈ join_inner a b) :
    x ∈ b := by
  unfold join_inner at h
  rw [List.mem_flatMap] at h
  obtain ⟨y, hy, hx⟩ := h
  rw [List.mem_map] at hx
  obtain ⟨z, hzmem, hz⟩ := hx
  rw [List.mem_filter] at hzmem
  have hzy : z = y := by simpa using hzmem.2
  rw [← hz, ← hzy]
  exact hzmem.1

lemma filter_eq_singleton_of_nodup {t : Idx} {x : String}
    (hnd : t.Nodup) (hx : x ∈ t) : t.filter (fun y => y = x) = [x] := by
  induction t with
  | nil => simp at hx
  | cons a rest ih =>
    rw [List.nodup_cons] at hnd
    rcases List.mem_cons.mp hx with hax | hrest
    · subst hax
      have : rest.filter (fun y => y = x) = [] := by
        apply List.filter_eq_nil_iff.mpr
        intro b hb
        simp only [decide_eq_true_eq]
        intro hbx
        exact hnd.1 (hbx ▸ hb)
      simp [List.filter, this]
    · have hax : ¬(a = x) := by
        intro hax
        exact hnd.1 (hax ▸ hrest)
      simp [List.filter, hax, ih hnd.2 hrest]

lemma join_inner_self {t : Idx} (hnd : t.Nodup) : join_inner t t = t := by
  unfold join_inner
  have : ∀ x ∈ t, (t.filter (fun y => y = x)).map (fun _ => x) = [x] := by
    intro x hx
    rw [filter_eq_singleton_of_nodup hnd hx]
    simp
  calc t.flatMap (fun x => (t.filter (fun y => y = x)).map (fun _ => x))
      = t.flatMap (fun x => [x]) := List.flatMap_congr this
    _ = t := List.flatMap_singleton' t

example : join_inner ["A", "B", "C"] ["B", "C", "D"] = ["B", "C"] := by decide

lemma match_loop_ok (data : List (String × Idx)) (mods : List String) :
    ∀ acc, (∀ m ∈ mods, (data.lookup m).isSome) →
    ∃ res, match_loop data mods acc = Except.ok res := by
  induction mods with
  | nil => intro acc _; exact ⟨acc, rfl⟩
  | cons m rest ih =>
    intro acc hsome
    have hm := hsome m (List.mem_cons_self m rest)
    obtain ⟨I, hI⟩ := Option.isSome_iff_exists.mp hm
    simp only [match_loop, dictGet_ok hI]
    exact ih (join_inner acc I) (fun m' hm' => hsome m' (List.mem_cons_of_mem m hm'))

lemma match_loop_subset (data : List (String × Idx)) (mods : List String) :
    ∀ acc res, match_loop data mods acc = Except.ok res →
      (∀ x ∈ res, x ∈ acc) ∧
      (∀ m I, m ∈ mods → data.lookup m = some I → ∀ x ∈ res, x ∈ I) := by
  induction mods with
  | nil =>
    intro acc res h
    simp only [match_loop, Except.ok.injEq] at h
    subst h
    exact ⟨fun _ hx => hx, fun m _ hm => absurd hm (List.not_mem_nil m)⟩
  | cons m rest ih =>
    intro acc res h
    rw [match_loop] at h
    cases hd : dictGet data m with
    | ok idx =>
      rw [hd] at h
      obtain ⟨hacc, hmods⟩ := ih (join_inner acc idx) res h
      refine ⟨fun x hx => mem_join_inner_left (hacc x hx), ?_⟩
      intro m' I hm' hI x hx
      rcases List.mem_cons.mp hm' with heq | hm'rest
      · subst heq
        have hlk := dictGet_ok_lookup hd
        rw [hlk] at hI
        have hidx : idx = I := by simpa using hI
        subst hidx
        exact mem_join_inner_right (hacc x hx)
      · exact hmods m' I hm'rest hI x hx
    | error e => rw [hd] at h; cases h

/-- Registry of the spec scenario: GE table with samples {A,B,C}, SNP table
with samples {B,C,D}. -/
def geSnpReg : MultiOmicsData :=
  { modalities := ["GE", "SNP"],
    data := [("GE", ["A", "B", "C"]), ("SNP", ["B", "C", "D"])],
    samples := [],
    patients := [] }

/-- C2: for every single modality `m` present in the registry,
`match_samples([m])` returns the full identifier set of modality `m`'s
table — a one-element modality list filters nothing out (the table's index
being uniquely keyed, per the data model). -/
theorem match_samples_single_modality_full (r : MultiOmicsData) (m : String) (I : Idx)
    (h : r.data.lookup m = some I) (hnd : I.Nodup) :
    (r.match_samples [m]).1 = Except.ok I := by
  simp only [MultiOmicsData.match_samples, dictGet_ok h, match_loop]
  rw [join_inner_self hnd]

/-- Witness for C2: on the concrete two-modality registry, requesting only
GE returns GE's full index. -/
theorem match_samples_single_modality_full_witness :
    geSnpReg.data.lookup "GE" = some ["A", "B", "C"]
    ∧ (["A", "B", "C"] : Idx).Nodup
    ∧ (geSnpReg.match_samples ["GE"]).1 = Except.ok ["A", "B", "C"] :=
  ⟨by decide, by decide,
   match_samples_single_modality_full geSnpReg "GE" ["A", "B", "C"] (by decide) (by decide)⟩

/-- C3: for every non-empty modality list whose tags are all present,
`match_samples` returns (never raises, even when the intersection is empty)
a list of identifiers contained in every member modality's identifier set;
and on the concrete registry with GE = {A,B,C} and SNP = {B,C,D} it returns
exactly {B,C}, in GE's own index order. -/
theorem match_samples_intersection :
    (∀ (r : MultiOmicsData) (M : List String), M ≠ [] →
        (∀ m ∈ M, (r.data.lookup m).isSome) →
        ∃ res, (r.match_samples M).1 = Except.ok res ∧
          ∀ m I, m ∈ M → r.data.lookup m = some I → ∀ x ∈ res, x ∈ I)
    ∧ (geSnpReg.match_samples ["GE", "SNP"]).1 = Except.ok ["B", "C"] := by
  constructor
  · intro r M hne hsome
    match M, hne with
    | m0 :: rest, _ =>
      have hm0 := hsome m0 (List.mem_cons_self m0 rest)
      obtain ⟨I0, hI0⟩ := Option.isSome_iff_exists.mp hm0
      obtain ⟨res, hres⟩ := match_loop_ok r.data (m0 :: rest) I0 hsome
      refine ⟨res, ?_, ?_⟩
      · simp only [MultiOmicsData.match_samples, dictGet_ok hI0]
        exact hres
      · exact (match_loop_subset r.data (m0 :: rest) I0 res hres).2
  · rfl

/-- Witness for C3: the universal part applied to the concrete registry. -/
theorem match_samples_intersection_witness :
    (["GE", "SNP"] : List String) ≠ []
    ∧ (∀ m ∈ (["GE", "SNP"] : List String), (geSnpReg.data.lookup m).isSome)
    ∧ ∃ res, (geSnpReg.match_samples ["GE", "SNP"]).1 = Except.ok res ∧
        ∀ m I, m ∈ (["GE", "SNP"] : List String) →
          geSnpReg.data.lookup m = some I → ∀ x ∈ res, x ∈ I :=
  ⟨by decide, by decide,
   match_samples_intersection.1 geSnpReg ["GE", "SNP"] (by decide) (by decide)⟩

/- ### The `load_data` query pipeline -/

/-- The Python `modalities` argument of `load_data`: the string sentinel
`"all"`, the unset value `None`, or a list of modality tags. -/
inductive ModalitiesArg where
  | all
  | unset
  | lst (mods : List String)

/-- Resolution of the `modalities` argument at the top of `load_data`:
`"all"` and `None` resolve to `self.modalities`; a non-empty list resolves
to itself; an empty list is falsy and raises
`Exception("Need to specify which multi-omics to retrieve")`. -/
def resolve_modalities (self : MultiOmicsData) : ModalitiesArg → Except String (List String)
  | .all => Except.ok self.modalities
  | .unset => Except.ok self.modalities
  | .lst [] => Except.error "Need to specify which multi-omics to retrieve"
  | .lst mods => Except.ok mods

/-- `pandas.DataFrame.reindex(labels)` on the uniquely-keyed SAMPLES table:
one row per requested label, in request order; an absent label yields an
all-missing row. -/
def reindex (tbl : List (String × Row)) (labels : List String) : List (String × Row) :=
  labels.map (fun s => (s, (tbl.lookup s).getD emptyRow))

/-- The filtered clinical target table `y` of `load_data`: the columns it
currently has and its rows (sample identifier paired with clinical row). -/
structure YTable where
  cols : List ClinField
  rows : List (String × Row)
deriving DecidableEq

/-- `MultiOmicsData.get_patients_clinical`: reindex the SAMPLES table at the
requested barcodes. The method assigns nothing to `self`, so the state
component is returned unchanged. -/
def MultiOmicsData.get_patients_clinical (self : MultiOmicsData)
    (matched_samples : List String) : YTable × MultiOmicsData :=
  (⟨allClinFields, reindex self.samples matched_samples⟩, self)

/-- `y[y[field].isin(values)]`: keep rows whose field value is one of the
given values; a missing value (NaN) matches no string list. -/
def filter_isin (y : YTable) (f : ClinField) (values : List String) : YTable :=
  { y with rows := y.rows.filter (fun p =>
      match p.2.get f with
      | some v => values.contains v
      | none => false) }

/-- One `if <values>: y = y[y[field].isin(<values>)]` step of `load_data`:
a no-op when the value list is empty (Python falsiness), otherwise the
`isin` filter. -/
def categorical_filter (y : YTable) (f : ClinField) (values : List String) : YTable :=
  if values.isEmpty then y else filter_isin y f values

/-- `y.filter(target)`: keep only the requested columns (those that exist),
in requested order; rows are untouched. -/
def filter_columns (y : YTable) (target : List String) : YTable :=
  { y with cols := (target.filterMap ClinField.ofName).filter (fun f => y.cols.contains f) }

/-- `y.dropna(axis=0)`: drop every row with a missing value in any current
column. -/
def dropna (y : YTable) : YTable :=
  { y with rows := y.rows.filter (fun p => y.cols.all (fun f => (p.2.get f).isSome)) }

/-- `table.loc[labels, :]` on a uniquely-keyed modality table: raises
`KeyError` when some label is absent from the index, otherwise returns the
rows matching each requested label, in request order. -/
def loc (t : Idx) (labels : List String) : Except String Idx :=
  if labels.all (fun l => decide (l ∈ t)) then
    Except.ok (labels.flatMap (fun l => t.filter (fun x => x = l)))
  else Except.error "KeyError: some labels are not in the index"

/-- The `for modality in modalities` loop at the end of `load_data`,
building `X_multiomics`: slice each modality's table at the surviving
sample identifiers. -/
def build_X (data : List (String × Idx)) (matched : List String) :
    List String → Except String (List (String × Idx))
  | [] => Except.ok []
  | m :: rest =>
    match dictGet data m with
    | Except.ok t =>
      match loc t matched with
      | Except.ok s =>
        match build_X data matched rest with
        | Except.ok xs => Except.ok ((m, s) :: xs)
        | Except.error e => Except.error e
      | Except.error e => Except.error e
    | Except.error e => Except.error e

/-- The filtering stage of `load_data` on the reindexed clinical table
`y0`: the four categorical `isin` filters in source order, the projection
onto the target columns, then `dropna`. -/
def apply_filters (y0 : YTable) (target : List String)
    (pathologic_stages histological_subtypes predicted_subtypes tumor_normal : List String) :
    YTable :=
  dropna (filter_columns
    (categorical_filter
      (categorical_filter
        (categorical_filter
          (categorical_filter y0 ClinField.pathologic_stage pathologic_stages)
          ClinField.histologic_subtype histological_subtypes)
        ClinField.predicted_subtype predicted_subtypes)
      ClinField.tumor_normal tumor_normal)
    target)

/-- The assembly stage of `load_data`: slice every requested modality table
at the index of the filtered target table `y6` and pair the slices with it. -/
def load_data_assemble (data : List (String × Idx)) (mods : List String) (y6 : YTable) :
    Except String (List (String × Idx) × YTable) :=
  match build_X data (y6.rows.map Prod.fst) mods with
  | Except.error e => Except.error e
  | Except.ok X => Except.ok (X, y6)

/-- `MultiOmicsData.load_data`: resolve the modality selection, intersect
sample identifiers via `match_samples` (`match_samples` always runs; the
matched identifiers are then overridden entirely by `samples_barcode` when
supplied), reindex the SAMPLES table at the matched barcodes, apply the
four categorical filters in sequence, project onto the target columns,
drop incomplete rows, and slice every requested modality table at the
surviving identifiers. The method assigns nothing to `self`, so the state
component is returned unchanged. -/
def MultiOmicsData.load_data (self : MultiOmicsData) (modalities : ModalitiesArg)
    (target : List String)
    (pathologic_stages histological_subtypes predicted_subtypes tumor_normal : List String)
    (samples_barcode : Option (List String)) :
    Except String (List (String × Idx) × YTable) × MultiOmicsData :=
  (match resolve_modalities self modalities with
   | Except.error e => Except.error e
   | Except.ok mods =>
     match (self.match_samples mods).1 with
     | Except.error e => Except.error e
     | Except.ok ms =>
       let matched := match samples_barcode with
         | some b => b
         | none => ms
       load_data_assemble self.data mods
         (apply_filters ((self.get_patients_clinical matched).1) target
           pathologic_stages histological_subtypes predicted_subtypes tumor_normal),
   self)

/-- `MultiOmicsData.print_sample_sizes`: report each table's name and row
count; purely diagnostic, assigns nothing to `self`. -/
def MultiOmicsData.print_sample_sizes (self : MultiOmicsData) :
    List (String × Nat) × MultiOmicsData :=
  ((self.data.map (fun p => (p.1, p.2.length)))
    ++ [("PATIENTS", self.patients.length), ("SAMPLES", self.samples.length)],
   self)

/-- `MultiOmicsData.add_subtypes_to_patients_clinical`: reassign
`self.data["PATIENTS"]` to the patient table with the `predicted_subtype`
column set, per row, to the mapping's value at that row's
`bcr_patient_barcode` (missing when the barcode is absent from the
mapping). -/
def MultiOmicsData.add_subtypes_to_patients_clinical (self : MultiOmicsData)
    (dictionary : List (String × String)) : MultiOmicsData :=
  { self with patients := self.patients.map (fun p =>
      { p with predicted_subtype := dictionary.lookup p.bcr_patient_barcode }) }

/- ### Claims about resolution, clinical fetch, mutation discipline -/

/-- C6: `load_data` resolves its modalities argument by replacing the
sentinel `"all"` or the unset value by the full modality list the registry
was constructed with, and raises on an empty modality selection instead of
silently returning an empty result. -/
theorem load_data_modalities_resolution (r : MultiOmicsData)
    (target ps hs prs tn : List String) (sb : Option (List String)) :
    resolve_modalities r ModalitiesArg.all = Except.ok r.modalities
    ∧ resolve_modalities r ModalitiesArg.unset = Except.ok r.modalities
    ∧ (r.load_data (ModalitiesArg.lst []) target ps hs prs tn sb).1
        = Except.error "Need to specify which multi-omics to retrieve" :=
  ⟨rfl, rfl, rfl⟩

/-- Concrete registry with one modality table and three samples, one of
which has a missing pathologic stage. -/
def reg1 : MultiOmicsData :=
  { modalities := ["GE"],
    data := [("GE", ["s1", "s2", "s3"])],
    samples := [("s1", ⟨some "Stage I", some "h1", some "p1", some "Tumor"⟩),
                ("s2", ⟨some "Stage II", some "h1", some "p1", some "Tumor"⟩),
                ("s3", ⟨none, some "h1", some "p1", some "Normal"⟩)],
    patients := [] }

/-- C8: `get_patients_clinical` never raises for absent sample identifiers
(it is a total reindex): the result has exactly one row per requested
identifier, in the requested order, and every requested identifier absent
from the SAMPLES table yields an all-missing row. -/
theorem get_patients_clinical_reindex_semantics (r : MultiOmicsData)
    (matched : List String) :
    (r.get_patients_clinical matched).1.rows.map Prod.fst = matched
    ∧ (r.get_patients_clinical matched).1.rows.length = matched.length
    ∧ ∀ p ∈ (r.get_patients_clinical matched).1.rows,
        r.samples.lookup p.1 = none → p.2 = emptyRow := by
  refine ⟨?_, ?_, ?_⟩
  · simp only [MultiOmicsData.get_patients_clinical, reindex, List.map_map]
    have h : (Prod.fst ∘ fun s => (s, (List.lookup s r.samples).getD emptyRow)) = id := rfl
    rw [h, List.map_id]
  · simp [MultiOmicsData.get_patients_clinical, reindex]
  · intro p hp hnone
    simp only [MultiOmicsData.get_patients_clinical, reindex, List.mem_map] at hp
    obtain ⟨s, _, hps⟩ := hp
    rw [← hps] at hnone ⊢
    simp only at hnone ⊢
    rw [hnone]
    rfl

/-- Witness for C8: on `reg1`, requesting the absent identifier `zz` yields
its all-missing row. -/
theorem get_patients_clinical_reindex_semantics_witness :
    ("zz", emptyRow) ∈ (reg1.get_patients_clinical ["s1", "zz"]).1.rows
    ∧ reg1.samples.lookup "zz" = none
    ∧ ("zz", emptyRow).2 = emptyRow :=
  ⟨by decide, by decide,
   (get_patients_clinical_reindex_semantics reg1 ["s1", "zz"]).2.2
     ("zz", emptyRow) (by decide) (by decide)⟩

/-- C9: after construction, every query operation leaves the registry's
state unchanged — `match_samples`, `load_data`, `get_patients_clinical`
and the diagnostic print all return the state they were given — and the
only mutating operation, `add_subtypes_to_patients_clinical`, touches
nothing but the PATIENTS table. -/
theorem registry_queries_pure (r : MultiOmicsData) (mods : List String)
    (marg : ModalitiesArg) (target ps hs prs tn : List String)
    (sb : Option (List String)) (ms : List String) (d : List (String × String)) :
    (r.match_samples mods).2 = r
    ∧ (r.load_data marg target ps hs prs tn sb).2 = r
    ∧ (r.get_patients_clinical ms).2 = r
    ∧ (r.print_sample_sizes).2 = r
    ∧ (r.add_subtypes_to_patients_clinical d).modalities = r.modalities
    ∧ (r.add_subtypes_to_patients_clinical d).data = r.data
    ∧ (r.add_subtypes_to_patients_clinical d).samples = r.samples :=
  ⟨rfl, rfl, rfl, rfl, rfl, rfl, rfl⟩

/-- C7: `add_subtypes_to_patients_clinical` preserves the patient table's
row count, the barcode column and every other existing column; a patient
whose barcode is absent from the mapping gets a missing
`predicted_subtype`; and the operation is idempotent for a fixed mapping. -/
theorem add_subtypes_additive_idempotent (r : MultiOmicsData)
    (d : List (String × String)) :
    (r.add_subtypes_to_patients_clinical d).patients.length = r.patients.length
    ∧ (r.add_subtypes_to_patients_clinical d).patients.map PatientRow.bcr_patient_barcode
        = r.patients.map PatientRow.bcr_patient_barcode
    ∧ (r.add_subtypes_to_patients_clinical d).patients.map PatientRow.others
        = r.patients.map PatientRow.others
    ∧ (∀ p ∈ (r.add_subtypes_to_patients_clinical d).patients,
        d.lookup p.bcr_patient_barcode = none → p.predicted_subtype = none)
    ∧ (r.add_subtypes_to_patients_clinical d).add_subtypes_to_patients_clinical d
        = r.add_subtypes_to_patients_clinical d := by
  refine ⟨?_, ?_, ?_, ?_, ?_⟩
  · simp [MultiOmicsData.add_subtypes_to_patients_clinical]
  · simp [MultiOmicsData.add_subtypes_to_patients_clinical]
  · simp [MultiOmicsData.add_subtypes_to_patients_clinical]
  · intro p hp hnone
    simp only [MultiOmicsData.add_subtypes_to_patients_clinical, List.mem_map] at hp
    obtain ⟨q, _, hqp⟩ := hp
    rw [← hqp] at hnone ⊢
    simp only at hnone ⊢
    exact hnone
  · simp only [MultiOmicsData.add_subtypes_to_patients_clinical, List.map_map,
      MultiOmicsData.mk.injEq, and_true, true_and]
    apply List.map_congr_left
    intro p _
    rfl

/-- Concrete registry holding only a patient table, for exercising the
subtype attachment. -/
def patientsReg : MultiOmicsData :=
  { modalities := [], data := [], samples := [],
    patients := [⟨"P1", [("age", "60")], none⟩, ⟨"P2", [], some "old"⟩] }

/-- The concrete barcode-to-subtype mapping used with `patientsReg`. -/
def subtypeDict : List (String × String) := [("P1", "basal")]

/-- Witness for C7: on `patientsReg`, patient P2 is absent from the mapping
and ends with a missing predicted subtype. -/
theorem add_subtypes_additive_idempotent_witness :
    (⟨"P2", [], none⟩ : PatientRow)
      ∈ (patientsReg.add_subtypes_to_patients_clinical subtypeDict).patients
    ∧ subtypeDict.lookup "P2" = none
    ∧ (⟨"P2", [], none⟩ : PatientRow).predicted_subtype = none :=
  ⟨by decide, by decide,
   (add_subtypes_additive_idempotent patientsReg subtypeDict).2.2.2.1
     ⟨"P2", [], none⟩ (by decide) (by decide)⟩

/- ### Alignment of the per-modality slices (C1) -/

lemma flatMap_singleton_eq {l : List String} {g : String → List String}
    (h : ∀ x ∈ l, g x = [x]) : l.flatMap g = l := by
  calc l.flatMap g = l.flatMap (fun x => [x]) := List.flatMap_congr h
    _ = l := List.flatMap_singleton' l

lemma loc_ok_of_mem {t : Idx} {labels : List String}
    (h : ∀ l ∈ labels, l ∈ t) :
    loc t labels = Except.ok (labels.flatMap (fun l => t.filter (fun x => x = l))) := by
  unfold loc
  rw [if_pos]
  exact List.all_eq_true.mpr (fun l hl => decide_eq_true (h l hl))

lemma loc_ok_mem {t : Idx} {labels s : List String}
    (h : loc t labels = Except.ok s) : ∀ l ∈ labels, l ∈ t := by
  unfold loc at h
  by_cases hall : labels.all (fun l => decide (l ∈ t))
  · intro l hl
    exact of_decide_eq_true (List.all_eq_true.mp hall l hl)
  · rw [if_neg hall] at h
    cases h

lemma loc_ok_nodup {t : Idx} {labels s : List String} (hnd : t.Nodup)
    (h : loc t labels = Except.ok s) : s = labels := by
  have hmem := loc_ok_mem h
  rw [loc_ok_of_mem hmem] at h
  have hs : labels.flatMap (fun l => t.filter (fun x => x = l)) = s := by
    simpa using h
  rw [← hs]
  exact flatMap_singleton_eq (fun l hl => filter_eq_singleton_of_nodup hnd (hmem l hl))

lemma build_X_members {data : List (String × Idx)} {matched : List String} :
    ∀ {mods : List String} {X : List (String × Idx)},
      build_X data matched mods = Except.ok X →
      ∀ p ∈ X, ∃ t, data.lookup p.1 = some t ∧ loc t matched = Except.ok p.2 := by
  intro mods
  induction mods with
  | nil =>
    intro X h p hp
    simp only [build_X, Except.ok.injEq] at h
    subst h
    cases hp
  | cons m rest ih =>
    intro X h p hp
    rw [build_X] at h
    split at h
    next t hd =>
      split at h
      next s hloc =>
        split at h
        next xs hrest =>
          simp only [Except.ok.injEq] at h
          subst h
          rcases List.mem_cons.mp hp with heq | hmem
          · subst heq
            exact ⟨t, dictGet_ok_lookup hd, hloc⟩
          · exact ih hrest p hmem
        next e hrest => exact Except.noConfusion h
      next e hloc => exact Except.noConfusion h
    next e hd => exact Except.noConfusion h

lemma build_X_ok {data : List (String × Idx)} {matched : List String} :
    ∀ {mods : List String},
      (∀ m ∈ mods, ∃ t, data.lookup m = some t ∧ ∀ l ∈ matched, l ∈ t) →
      ∃ X, build_X data matched mods = Except.ok X := by
  intro mods
  induction mods with
  | nil => intro _; exact ⟨[], rfl⟩
  | cons m rest ih =>
    intro hm
    obtain ⟨t, ht, hmem⟩ := hm m (List.mem_cons_self m rest)
    obtain ⟨xs, hxs⟩ := ih (fun m' hm' => hm m' (List.mem_cons_of_mem m hm'))
    refine ⟨(m, matched.flatMap (fun l => t.filter (fun x => x = l))) :: xs, ?_⟩
    simp only [build_X, dictGet_ok ht, loc_ok_of_mem hmem, hxs]

lemma build_X_ok_forall {data : List (String × Idx)} {matched : List String} :
    ∀ {mods : List String} {X : List (String × Idx)},
      build_X data matched mods = Except.ok X →
      ∀ m ∈ mods, ∃ t, data.lookup m = some t ∧ ∀ l ∈ matched, l ∈ t := by
  intro mods
  induction mods with
  | nil => intro X _ m hm; cases hm
  | cons m0 rest ih =>
    intro X h m hm
    rw [build_X] at h
    split at h
    next t hd =>
      split at h
      next s hloc =>
        split at h
        next xs hrest =>
          rcases List.mem_cons.mp hm with heq | hmem
          · subst heq
            exact ⟨t, dictGet_ok_lookup hd, loc_ok_mem hloc⟩
          · exact ih hrest m hmem
        next e hrest => exact Except.noConfusion h
      next e hloc => exact Except.noConfusion h
    next e hd => exact Except.noConfusion h

lemma load_data_assemble_ok {data : List (String × Idx)} {mods : List String}
    {y6 : YTable} {X : List (String × Idx)} {y : YTable}
    (h : load_data_assemble data mods y6 = Except.ok (X, y)) :
    y = y6 ∧ build_X data (y6.rows.map Prod.fst) mods = Except.ok X := by
  unfold load_data_assemble at h
  split at h
  · exact Except.noConfusion h
  · next X' hb =>
      simp only [Except.ok.injEq, Prod.mk.injEq] at h
      obtain ⟨hX, hy⟩ := h
      subst hX
      exact ⟨hy.symm, hb⟩

/-- C1: whenever `load_data` returns, every per-modality table of the
returned collection carries exactly the surviving sample identifiers of
the filtered target table, in that order — all returned tables share one
identical, ordered sample-identifier index (modality tables being uniquely
keyed, per the data model). -/
theorem load_data_alignment (r : MultiOmicsData)
    (hnd : ∀ p ∈ r.data, (p.2 : Idx).Nodup)
    (marg : ModalitiesArg) (target ps hs prs tn : List String)
    (sb : Option (List String)) (X : List (String × Idx)) (y : YTable)
    (h : (r.load_data marg target ps hs prs tn sb).1 = Except.ok (X, y)) :
    ∀ p ∈ X, p.2 = y.rows.map Prod.fst := by
  intro p hp
  simp only [MultiOmicsData.load_data] at h
  split at h
  · exact Except.noConfusion h
  · split at h
    · exact Except.noConfusion h
    · obtain ⟨hy, hbX⟩ := load_data_assemble_ok h
      subst hy
      obtain ⟨t, ht, hloc⟩ := build_X_members hbX p hp
      exact loc_ok_nodup (hnd (p.1, t) (lookup_mem ht)) hloc

/-- The per-modality slices `load_data` returns on `reg1` with target
`pathologic_stage` and no filters: sample `s3` is dropped by `dropna`. -/
def xOut1 : List (String × Idx) := [("GE", ["s1", "s2"])]

/-- The filtered target table `load_data` returns on `reg1` with target
`pathologic_stage` and no filters. -/
def yOut1 : YTable :=
  ⟨[ClinField.pathologic_stage],
   [("s1", ⟨some "Stage I", some "h1", some "p1", some "Tumor"⟩),
    ("s2", ⟨some "Stage II", some "h1", some "p1", some "Tumor"⟩)]⟩

/-- Witness for C1: on `reg1`, the GE slice carries exactly the surviving
identifiers of the returned target table. -/
theorem load_data_alignment_witness :
    (∀ p ∈ reg1.data, (p.2 : Idx).Nodup)
    ∧ (reg1.load_data (ModalitiesArg.lst ["GE"]) ["pathologic_stage"] [] [] [] [] none).1
        = Except.ok (xOut1, yOut1)
    ∧ ["s1", "s2"] = yOut1.rows.map Prod.fst :=
  ⟨by decide, by rfl,
   load_data_alignment reg1 (by decide) (ModalitiesArg.lst ["GE"]) ["pathologic_stage"]
     [] [] [] [] none xOut1 yOut1 (by rfl) ("GE", ["s1", "s2"]) (by decide)⟩

/- ### The empty-list filters are no-ops (C5) -/

lemma categorical_filter_nil (y : YTable) (f : ClinField) :
    categorical_filter y f [] = y := rfl

lemma categorical_filter_cons (y : YTable) (f : ClinField) (v : String) (vs : List String) :
    categorical_filter y f (v :: vs) = filter_isin y f (v :: vs) := rfl

lemma categorical_filter_rel {y1 y2 : YTable} (hc : y1.cols = y2.cols)
    (hr : y1.rows.Sublist y2.rows) (f : ClinField) (vals : List String) :
    (categorical_filter y1 f vals).cols = (categorical_filter y2 f vals).cols
    ∧ (categorical_filter y1 f vals).rows.Sublist (categorical_filter y2 f vals).rows := by
  cases vals with
  | nil => rw [categorical_filter_nil, categorical_filter_nil]; exact ⟨hc, hr⟩
  | cons v vs =>
    rw [categorical_filter_cons, categorical_filter_cons]
    unfold filter_isin
    exact ⟨hc, List.Sublist.filter _ hr⟩

lemma filter_columns_rel {y1 y2 : YTable} (hc : y1.cols = y2.cols)
    (hr : y1.rows.Sublist y2.rows) (target : List String) :
    (filter_columns y1 target).cols = (filter_columns y2 target).cols
    ∧ (filter_columns y1 target).rows.Sublist (filter_columns y2 target).rows := by
  unfold filter_columns
  rw [hc]
  exact ⟨rfl, hr⟩

lemma dropna_rel {y1 y2 : YTable} (hc : y1.cols = y2.cols)
    (hr : y1.rows.Sublist y2.rows) :
    (dropna y1).rows.Sublist (dropna y2).rows := by
  unfold dropna
  rw [hc]
  exact List.Sublist.filter _ hr

lemma apply_filters_stage_sublist (y0 : YTable) (target stages hs prs tn : List String) :
    (apply_filters y0 target stages hs prs tn).rows.Sublist
      (apply_filters y0 target [] hs prs tn).rows := by
  unfold apply_filters
  have h1 : (categorical_filter y0 ClinField.pathologic_stage stages).cols
      = (categorical_filter y0 ClinField.pathologic_stage []).cols
      ∧ (categorical_filter y0 ClinField.pathologic_stage stages).rows.Sublist
        (categorical_filter y0 ClinField.pathologic_stage []).rows := by
    rw [categorical_filter_nil]
    cases stages with
    | nil => rw [categorical_filter_nil]; exact ⟨rfl, List.Sublist.refl _⟩
    | cons v vs =>
      rw [categorical_filter_cons]
      unfold filter_isin
      exact ⟨rfl, List.filter_sublist _⟩
  have h2 := categorical_filter_rel h1.1 h1.2 ClinField.histologic_subtype hs
  have h3 := categorical_filter_rel h2.1 h2.2 ClinField.predicted_subtype prs
  have h4 := categorical_filter_rel h3.1 h3.2 ClinField.tumor_normal tn
  have h5 := filter_columns_rel h4.1 h4.2 target
  exact dropna_rel h5.1 h5.2

lemma load_data_tail_superset (data : List (String × Idx)) (mods : List String)
    (y0 : YTable) (target stages hs prs tn : List String)
    (X : List (String × Idx)) (y : YTable)
    (h : load_data_assemble data mods (apply_filters y0 target [] hs prs tn)
      = Except.ok (X, y)) :
    ∃ X' y', load_data_assemble data mods (apply_filters y0 target stages hs prs tn)
        = Except.ok (X', y')
      ∧ ∀ s ∈ y'.rows.map Prod.fst, s ∈ y.rows.map Prod.fst := by
  obtain ⟨hy, hbX⟩ := load_data_assemble_ok h
  subst hy
  have hforall := build_X_ok_forall hbX
  have hsub := apply_filters_stage_sublist y0 target stages hs prs tn
  have hmapsub := List.Sublist.map Prod.fst hsub
  obtain ⟨X', hX'⟩ := @build_X_ok data
    ((apply_filters y0 target stages hs prs tn).rows.map Prod.fst) mods
    (fun m hm => by
      obtain ⟨t, ht, hmem⟩ := hforall m hm
      exact ⟨t, ht, fun l hl => hmem l (hmapsub.subset hl)⟩)
  refine ⟨X', apply_filters y0 target stages hs prs tn, ?_, ?_⟩
  · simp only [load_data_assemble, hX']
  · intro s hsmem
    exact hmapsub.subset hsmem

/-- C5: each of the four categorical filters of `load_data` is a no-op when
its argument is the empty list, and consequently — every other argument
held fixed — whenever the unfiltered call returns, the call filtered by a
stage list also returns, and its surviving samples are a subset of the
unfiltered call's surviving samples. -/
theorem load_data_empty_filters_noop :
    (∀ (y : YTable) (f : ClinField), categorical_filter y f [] = y)
    ∧ ∀ (r : MultiOmicsData) (marg : ModalitiesArg) (target hs prs tn : List String)
        (sb : Option (List String)) (stages : List String)
        (X : List (String × Idx)) (y : YTable),
        (r.load_data marg target [] hs prs tn sb).1 = Except.ok (X, y) →
        ∃ X' y', (r.load_data marg target stages hs prs tn sb).1 = Except.ok (X', y')
          ∧ ∀ s ∈ y'.rows.map Prod.fst, s ∈ y.rows.map Prod.fst := by
  constructor
  · intro y f; exact categorical_filter_nil y f
  · intro r marg target hs prs tn sb stages X y h
    simp only [MultiOmicsData.load_data] at h ⊢
    cases hres : resolve_modalities r marg with
    | error e => rw [hres] at h; exact Except.noConfusion h
    | ok mods =>
      simp only [hres] at h ⊢
      cases hms : (r.match_samples mods).1 with
      | error e => rw [hms] at h; exact Except.noConfusion h
      | ok ms =>
        simp only [hms] at h ⊢
        exact load_data_tail_superset r.data mods _ target stages hs prs tn X y h

/-- Witness for C5: on `reg1`, the Stage-I-filtered call returns and its
samples are contained in the unfiltered call's samples. -/
theorem load_data_empty_filters_noop_witness :
    (reg1.load_data (ModalitiesArg.lst ["GE"]) ["pathologic_stage"] [] [] [] [] none).1
        = Except.ok (xOut1, yOut1)
    ∧ ∃ X' y',
        (reg1.load_data (ModalitiesArg.lst ["GE"]) ["pathologic_stage"]
          ["Stage I"] [] [] [] none).1 = Except.ok (X', y')
        ∧ ∀ s ∈ y'.rows.map Prod.fst, s ∈ yOut1.rows.map Prod.fst :=
  ⟨by rfl,
   load_data_empty_filters_noop.2 reg1 (ModalitiesArg.lst ["GE"]) ["pathologic_stage"]
     [] [] [] none ["Stage I"] xOut1 yOut1 (by rfl)⟩

/- ### The constructor of `MultiOmicsData` (C4, C10) -/

/-- `os.path.join` for the paths the constructor builds. -/
def path_join (a b : String) : String := a ++ "/" ++ b

/-- Modelled from the spec: `GeneExpression.process_gene_info` (in
`TCGAMultiOmics/genomic.py`, not under src/) is an enrichment call that
raises `FileNotFoundError` naming the missing path when the TargetScan
`Gene_info.txt` file is absent, and otherwise succeeds. -/
def process_gene_info (path : String) (fileExists : Bool) : Except String Unit :=
  if fileExists then Except.ok () else Except.error ("FileNotFoundError: " ++ path)

/-- Modelled from the spec: `GeneExpression.process_RegNet_gene_regulatory_network`
(not under src/) raises `FileNotFoundError` naming the missing path when the
RegNetwork file is absent, and otherwise succeeds. -/
def process_RegNet_gene_regulatory_network (path : String) (fileExists : Bool) :
    Except String Unit :=
  if fileExists then Except.ok () else Except.error ("FileNotFoundError: " ++ path)

/-- Modelled from the spec: `MiRNAExpression.process_target_scan` (not under
src/) raises `FileNotFoundError` naming the missing path when the TargetScan
folder is absent, and otherwise succeeds. -/
def process_target_scan (path : String) (folderExists : Bool) : Except String Unit :=
  if folderExists then Except.ok () else Except.error ("FileNotFoundError: " ++ path)

/-- Modelled from the spec: `LncRNAExpression.process_starBase_miRNA_lncRNA_interactions`
(not under src/) raises `FileNotFoundError` naming the missing path when the
StarBase folder is absent, and otherwise succeeds. -/
def process_starBase_miRNA_lncRNA_interactions (path : String) (folderExists : Bool) :
    Except String Unit :=
  if folderExists then Except.ok () else Except.error ("FileNotFoundError: " ++ path)

/-- Modelled from the spec: `ProteinExpression.process_HPRD_PPI_network` (not
under src/) raises `FileNotFoundError` naming the missing path when the HPRD
interaction file is absent, and otherwise succeeds. -/
def process_HPRD_PPI_network (path : String) (fileExists : Bool) : Except String Unit :=
  if fileExists then Except.ok () else Except.error ("FileNotFoundError: " ++ path)

/-- The environment the constructor runs in. Modelled from the spec: the
primary loads of the leaf stores (`ClinicalData`, `GeneExpression`, ... —
classes not under src/) are assumed to succeed and deliver the listed
tables (primary load failures are fatal by the spec's two-tier error
policy and are outside these claims); the `...Exists` flags say which
optional external enrichment files are present;
`build_clinical_samples` stands for
`ClinicalData.build_clinical_samples`, producing the SAMPLES table from
the union of sample identifiers. -/
structure Env where
  patientsIdx : Idx
  drugsIdx : Idx
  patientsTable : List PatientRow
  geData : Idx
  snpData : Idx
  mirData : Idx
  lncData : Idx
  dnaData : Idx
  cnvData : Idx
  proData : Idx
  external_data_path : String
  geneInfoExists : Bool
  regnetExists : Bool
  targetScanExists : Bool
  starBaseExists : Bool
  hprdExists : Bool
  build_clinical_samples : List String → List (String × Row)

/-- The constructor's running state: the `self.data` entries stored so far,
whether the `self.GE` attribute has been set, and the diagnostics printed
so far. -/
structure InitState where
  data : List (String × Idx)
  geLoaded : Bool
  diags : List String

/-- The diagnostic `load_data`'s GE branch prints when the TargetScan gene
info file is missing; it names the external data directory. -/
def ge_diag_msg (external_data_path : String) : String :=
  "Could not run GeneExpression.process_gene_info() because of missing TargetScan/Gene_info.txt data in the directory "
    ++ external_data_path

/-- The diagnostic the MIR branch prints when the TargetScan folder is
missing; it names the external data directory. -/
def mir_diag_msg (external_data_path : String) : String :=
  "Could not run MiRNAExpression.process_target_scan() because of missing TargetScan data folder in the directory "
    ++ external_data_path

/-- The `if ("GE" in modalities)` branch of the constructor: store the GE
table, then try the two enrichment calls, each wrapped in
`try/except FileNotFoundError` that prints diagnostics and continues. -/
def ge_step (modalities : List String) (env : Env) (s : InitState) : InitState :=
  if modalities.contains "GE" then
    let s1 : InitState := { s with data := s.data ++ [("GE", env.geData)], geLoaded := true }
    let s2 : InitState :=
      match process_gene_info
          (path_join (path_join env.external_data_path "TargetScan") "Gene_info.txt")
          env.geneInfoExists with
      | Except.ok _ => s1
      | Except.error e =>
        { s1 with diags := s1.diags ++ [e, ge_diag_msg env.external_data_path] }
    match process_RegNet_gene_regulatory_network
        (path_join (path_join env.external_data_path "RegNetwork") "human.source")
        env.regnetExists with
    | Except.ok _ => s2
    | Except.error e => { s2 with diags := s2.diags ++ [e] }
  else s

/-- The `if ("SNP" in modalities)` branch: store the table; no enrichment. -/
def snp_step (modalities : List String) (env : Env) (s : InitState) : InitState :=
  if modalities.contains "SNP" then
    { s with data := s.data ++ [("SNP", env.snpData)] }
  else s

/-- The `if ("MIR" in modalities)` branch: store the MIR table, then inside
the `try` block evaluate `self.GE.get_genes_list()` — an `AttributeError`
(not caught by `except FileNotFoundError`) when the GE branch never ran —
and call the TargetScan enrichment, whose `FileNotFoundError` is caught
with diagnostics. -/
def mir_step (modalities : List String) (env : Env) (s : InitState) :
    Except String InitState :=
  if modalities.contains "MIR" then
    if s.geLoaded then
      match process_target_scan (path_join env.external_data_path "TargetScan")
          env.targetScanExists with
      | Except.ok _ => Except.ok { s with data := s.data ++ [("MIR", env.mirData)] }
      | Except.error e =>
        Except.ok { s with
                    data := s.data ++ [("MIR", env.mirData)],
                    diags := s.diags ++ [e, mir_diag_msg env.external_data_path] }
    else Except.error "AttributeError: MultiOmicsData object has no attribute GE"
  else Except.ok s

/-- The `if ("LNC" in modalities)` branch: the primary `LncRNAExpression`
load succeeds per the Env; store its table, then try the StarBase
enrichment, whose `FileNotFoundError` is caught (printing only the error). -/
def lnc_step (modalities : List String) (env : Env) (s : InitState) : InitState :=
  if modalities.contains "LNC" then
    let s1 : InitState := { s with data := s.data ++ [("LNC", env.lncData)] }
    match process_starBase_miRNA_lncRNA_interactions
        (path_join env.external_data_path "StarBase v2.0") env.starBaseExists with
    | Except.ok _ => s1
    | Except.error e => { s1 with diags := s1.diags ++ [e] }
  else s

/-- The `if ("DNA" in modalities)` branch: store the table; no enrichment. -/
def dna_step (modalities : List String) (env : Env) (s : InitState) : InitState :=
  if modalities.contains "DNA" then
    { s with data := s.data ++ [("DNA", env.dnaData)] }
  else s

/-- The `if ("CNV" in modalities)` branch: store the table; no enrichment. -/
def cnv_step (modalities : List String) (env : Env) (s : InitState) : InitState :=
  if modalities.contains "CNV" then
    { s with data := s.data ++ [("CNV", env.cnvData)] }
  else s

/-- The `if ("PRO" in modalities)` branch: store the PRO table, then call
the HPRD enrichment with NO try/except around it — a `FileNotFoundError`
propagates out of the constructor. -/
def pro_step (modalities : List String) (env : Env) (s : InitState) :
    Except String InitState :=
  if modalities.contains "PRO" then
    match process_HPRD_PPI_network
        (path_join (path_join env.external_data_path "HPRD_PPI")
          "BINARY_PROTEIN_PROTEIN_INTERACTIONS.txt")
        env.hprdExists with
    | Except.ok _ => Except.ok { s with data := s.data ++ [("PRO", env.proData)] }
    | Except.error e => Except.error e
  else Except.ok s

/-- `pandas.Index.union` as used by the construction-time loop (order is
irrelevant downstream: the union only feeds `build_clinical_samples`). -/
def index_union (a b : Idx) : Idx :=
  a ++ b.filter (fun x => decide (¬ x ∈ a))

/-- The `for modality in self.modalities` loop computing `all_samples`:
look up each requested modality in `self.data` (a `KeyError` when the key
was never stored) and union the indexes. -/
def all_samples_loop (data : List (String × Idx)) :
    List String → Idx → Except String Idx
  | [], acc => Except.ok acc
  | m :: rest, acc =>
    match dictGet data m with
    | Except.ok idx => all_samples_loop data rest (index_union acc idx)
    | Except.error e => Except.error e

/-- The `self.data` contents before any modality branch runs: the PATIENTS
and DRUGS entries stored from the clinical load. -/
def init_state0 (env : Env) : InitState :=
  { data := [("PATIENTS", env.patientsIdx), ("DRUGS", env.drugsIdx)],
    geLoaded := false, diags := [] }

/-- The `MultiOmicsData` constructor: clinical load, the WSI branch (`pass`
— it stores nothing), the seven modality branches in source order, the
`all_samples` union loop over `self.modalities`, and the SAMPLES build.
Returns the ready registry and the printed diagnostics, or the uncaught
exception. -/
def multiomics_init (modalities : List String) (env : Env) :
    Except String (MultiOmicsData × List String) :=
  match mir_step modalities env
      (snp_step modalities env (ge_step modalities env (init_state0 env))) with
  | Except.error e => Except.error e
  | Except.ok s3 =>
    match pro_step modalities env
        (cnv_step modalities env (dna_step modalities env (lnc_step modalities env s3))) with
    | Except.error e => Except.error e
    | Except.ok s7 =>
      match all_samples_loop s7.data modalities [] with
      | Except.error e => Except.error e
      | Except.ok all_samples =>
        Except.ok
          ({ modalities := modalities, data := s7.data,
             samples := env.build_clinical_samples all_samples,
             patients := env.patientsTable }, s7.diags)

/- ### Constructor lemmas -/

lemma dictGet_none {d : List (String × Idx)} {k : String}
    (h : d.lookup k = none) : dictGet d k = Except.error ("KeyError: " ++ k) := by
  simp [dictGet, h]

lemma lookup_append_singleton_none {α : Type} {l : List (String × α)} {q k : String}
    {v : α} (h : l.lookup q = none) (hqk : q ≠ k) : (l ++ [(k, v)]).lookup q = none := by
  induction l with
  | nil =>
    have hb : (q == k) = false := beq_eq_false_iff_ne.mpr hqk
    simp [List.lookup, hb]
  | cons p rest ih =>
    rw [List.lookup] at h
    rw [List.cons_append, List.lookup]
    cases hb : q == p.1 with
    | true => rw [hb] at h; cases h
    | false =>
      rw [hb] at h
      exact ih h

lemma lookup_append_singleton_self {α : Type} {l : List (String × α)} {k : String}
    {v : α} (h : l.lookup k = none) : (l ++ [(k, v)]).lookup k = some v := by
  induction l with
  | nil => simp [List.lookup]
  | cons p rest ih =>
    rw [List.lookup] at h
    rw [List.cons_append, List.lookup]
    cases hb : k == p.1 with
    | true => rw [hb] at h; cases h
    | false =>
      rw [hb] at h
      exact ih h

lemma ge_step_data (modalities : List String) (env : Env) (s : InitState) :
    (ge_step modalities env s).data
      = if modalities.contains "GE" then s.data ++ [("GE", env.geData)] else s.data := by
  unfold ge_step
  split
  · split <;> split <;> rfl
  · rfl

lemma snp_step_data (modalities : List String) (env : Env) (s : InitState) :
    (snp_step modalities env s).data
      = if modalities.contains "SNP" then s.data ++ [("SNP", env.snpData)] else s.data := by
  unfold snp_step
  split <;> rfl

lemma lnc_step_data (modalities : List String) (env : Env) (s : InitState) :
    (lnc_step modalities env s).data
      = if modalities.contains "LNC" then s.data ++ [("LNC", env.lncData)] else s.data := by
  unfold lnc_step
  split
  · split <;> rfl
  · rfl

lemma dna_step_data (modalities : List String) (env : Env) (s : InitState) :
    (dna_step modalities env s).data
      = if modalities.contains "DNA" then s.data ++ [("DNA", env.dnaData)] else s.data := by
  unfold dna_step
  split <;> rfl

lemma cnv_step_data (modalities : List String) (env : Env) (s : InitState) :
    (cnv_step modalities env s).data
      = if modalities.contains "CNV" then s.data ++ [("CNV", env.cnvData)] else s.data := by
  unfold cnv_step
  split <;> rfl

lemma mir_step_ok_data {modalities : List String} {env : Env} {s s' : InitState}
    (hok : mir_step modalities env s = Except.ok s') :
    s'.data = s.data ∨ s'.data = s.data ++ [("MIR", env.mirData)] := by
  unfold mir_step at hok
  by_cases hm : modalities.contains "MIR" = true
  · rw [if_pos hm] at hok
    by_cases hg : s.geLoaded = true
    · rw [if_pos hg] at hok
      cases hts : process_target_scan (path_join env.external_data_path "TargetScan")
          env.targetScanExists with
      | ok u =>
        simp only [hts, Except.ok.injEq] at hok
        subst hok
        right; rfl
      | error e =>
        simp only [hts, Except.ok.injEq] at hok
        subst hok
        right; rfl
    · rw [if_neg hg] at hok
      exact Except.noConfusion hok
  · rw [if_neg hm] at hok
    simp only [Except.ok.injEq] at hok
    subst hok
    left; rfl

lemma pro_step_ok_data {modalities : List String} {env : Env} {s s' : InitState}
    (hok : pro_step modalities env s = Except.ok s') :
    s'.data = s.data ∨ s'.data = s.data ++ [("PRO", env.proData)] := by
  unfold pro_step at hok
  by_cases hm : modalities.contains "PRO" = true
  · rw [if_pos hm] at hok
    cases hh : process_HPRD_PPI_network
        (path_join (path_join env.external_data_path "HPRD_PPI")
          "BINARY_PROTEIN_PROTEIN_INTERACTIONS.txt")
        env.hprdExists with
    | ok u =>
      simp only [hh, Except.ok.injEq] at hok
      subst hok
      right; rfl
    | error e =>
      simp only [hh] at hok
      exact Except.noConfusion hok
  · rw [if_neg hm] at hok
    simp only [Except.ok.injEq] at hok
    subst hok
    left; rfl

lemma wsi_none_if_append {l : List (String × Idx)} {k : String} {v : Idx}
    (h : l.lookup "WSI" = none) (hk : ("WSI" : String) ≠ k) (b : Bool) :
    (if b then l ++ [(k, v)] else l).lookup "WSI" = none := by
  cases b with
  | true => exact lookup_append_singleton_none h hk
  | false => exact h

lemma all_samples_loop_error {data : List (String × Idx)} :
    ∀ {mods : List String} {acc : Idx}, "WSI" ∈ mods → data.lookup "WSI" = none →
      ∃ e, all_samples_loop data mods acc = Except.error e := by
  intro mods
  induction mods with
  | nil => intro acc h; cases h
  | cons m rest ih =>
    intro acc hmem hnone
    rw [all_samples_loop]
    split
    next idx hd =>
      rcases List.mem_cons.mp hmem with heq | hmem'
      · rw [← heq] at hd
        rw [dictGet_none hnone] at hd
        cases hd
      · exact ih hmem' hnone
    next e hd => exact ⟨e, rfl⟩

/-- The default modality list of the constructor's signature. -/
def default_modalities : List String :=
  ["WSI", "GE", "SNP", "CNV", "DNA", "MIR", "LNC", "PRO"]

/-- An environment in which every primary table is empty and every optional
external enrichment file is present. -/
def env_good : Env :=
  { patientsIdx := [], drugsIdx := [], patientsTable := [],
    geData := [], snpData := [], mirData := [], lncData := [],
    dnaData := [], cnvData := [], proData := [],
    external_data_path := "external",
    geneInfoExists := true, regnetExists := true, targetScanExists := true,
    starBaseExists := true, hprdExists := true,
    build_clinical_samples := fun _ => [] }

/-- C10: constructing the registry with a modality list containing `"WSI"`
always fails — the WSI branch stores no table under that key, and the
construction-time union loop looks it up — and with the constructor's
default modality list (and every data file present) the failure is exactly
the `KeyError` for `"WSI"`. -/
theorem wsi_construction_fails :
    (∀ (modalities : List String) (env : Env), "WSI" ∈ modalities →
      ∃ e, multiomics_init modalities env = Except.error e)
    ∧ multiomics_init default_modalities env_good = Except.error "KeyError: WSI" := by
  constructor
  · intro mods env hmem
    unfold multiomics_init
    split
    next e hmir => exact ⟨e, rfl⟩
    next s3 hmir =>
      split
      next e hpro => exact ⟨e, rfl⟩
      next s7 hpro =>
        have h0 : (init_state0 env).data.lookup "WSI" = none := rfl
        have h1 : (ge_step mods env (init_state0 env)).data.lookup "WSI" = none := by
          rw [ge_step_data]
          exact wsi_none_if_append h0 (by decide) _
        have h2 : (snp_step mods env (ge_step mods env (init_state0 env))).data.lookup "WSI"
            = none := by
          rw [snp_step_data]
          exact wsi_none_if_append h1 (by decide) _
        have h3 : s3.data.lookup "WSI" = none := by
          rcases mir_step_ok_data hmir with hd | hd <;> rw [hd]
          · exact h2
          · exact lookup_append_singleton_none h2 (by decide)
        have h4 : (lnc_step mods env s3).data.lookup "WSI" = none := by
          rw [lnc_step_data]
          exact wsi_none_if_append h3 (by decide) _
        have h5 : (dna_step mods env (lnc_step mods env s3)).data.lookup "WSI" = none := by
          rw [dna_step_data]
          exact wsi_none_if_append h4 (by decide) _
        have h6 : (cnv_step mods env (dna_step mods env (lnc_step mods env s3))).data.lookup
            "WSI" = none := by
          rw [cnv_step_data]
          exact wsi_none_if_append h5 (by decide) _
        have h7 : s7.data.lookup "WSI" = none := by
          rcases pro_step_ok_data hpro with hd | hd <;> rw [hd]
          · exact h6
          · exact lookup_append_singleton_none h6 (by decide)
        obtain ⟨e, he⟩ := all_samples_loop_error hmem h7
        rw [he]
        exact ⟨e, rfl⟩
  · rfl

/- ### Enrichment failure handling (C4) -/

lemma process_gene_info_missing (p : String) :
    process_gene_info p false = Except.error ("FileNotFoundError: " ++ p) := rfl

lemma process_target_scan_missing (p : String) :
    process_target_scan p false = Except.error ("FileNotFoundError: " ++ p) := rfl

lemma process_starBase_missing (p : String) :
    process_starBase_miRNA_lncRNA_interactions p false
      = Except.error ("FileNotFoundError: " ++ p) := rfl

lemma ge_step_diags_missing {mods : List String} {env : Env} {s : InitState}
    (hm : mods.contains "GE" = true) (hgi : env.geneInfoExists = false) :
    ge_diag_msg env.external_data_path ∈ (ge_step mods env s).diags := by
  unfold ge_step
  rw [if_pos hm, hgi, process_gene_info_missing]
  split
  next a heq => exact Except.noConfusion heq
  next e heq => split <;> simp

/-- C4 (amended): in the GE, MIR and LNC branches a missing optional
enrichment file is non-fatal — the `FileNotFoundError` is caught at the
enrichment call, a diagnostic naming the missing path is emitted, and the
branch's base table is still stored (the MIR branch additionally requires
the GE attribute to exist); the PRO branch, by contrast, is not guarded
(see the counterexample theorem). -/
theorem enrichment_missing_file_handling (env : Env) (mods : List String) (s : InitState) :
    (mods.contains "GE" = true → env.geneInfoExists = false →
      s.data.lookup "GE" = none →
      (ge_step mods env s).data.lookup "GE" = some env.geData
      ∧ ge_diag_msg env.external_data_path ∈ (ge_step mods env s).diags)
    ∧ (mods.contains "MIR" = true → s.geLoaded = true →
        env.targetScanExists = false → s.data.lookup "MIR" = none →
        ∃ s', mir_step mods env s = Except.ok s'
          ∧ s'.data.lookup "MIR" = some env.mirData
          ∧ mir_diag_msg env.external_data_path ∈ s'.diags)
    ∧ (mods.contains "LNC" = true → env.starBaseExists = false →
        s.data.lookup "LNC" = none →
        (lnc_step mods env s).data.lookup "LNC" = some env.lncData
        ∧ ("FileNotFoundError: " ++ path_join env.external_data_path "StarBase v2.0")
            ∈ (lnc_step mods env s).diags) := by
  refine ⟨?_, ?_, ?_⟩
  · intro hm hgi hnone
    constructor
    · rw [ge_step_data, if_pos hm]
      exact lookup_append_singleton_self hnone
    · exact ge_step_diags_missing hm hgi
  · intro hm hg hts hnone
    refine ⟨{ s with
              data := s.data ++ [("MIR", env.mirData)],
              diags := s.diags
                ++ ["FileNotFoundError: " ++ path_join env.external_data_path "TargetScan",
                    mir_diag_msg env.external_data_path] }, ?_, ?_, ?_⟩
    · unfold mir_step
      rw [if_pos hm, if_pos hg, hts, process_target_scan_missing]
    · exact lookup_append_singleton_self hnone
    · simp
  · intro hm hsb hnone
    constructor
    · rw [lnc_step_data, if_pos hm]
      exact lookup_append_singleton_self hnone
    · unfold lnc_step
      rw [if_pos hm, hsb, process_starBase_missing]
      simp

/-- The environment `env_good` with the optional HPRD protein-interaction
file absent. -/
def env_no_hprd : Env := { env_good with hprdExists := false }

/-- Counterexample for C4 as stated: with the PRO modality activated and
only the optional HPRD enrichment file missing, registry construction does
raise — the `FileNotFoundError` of the unguarded enrichment call escapes
the constructor. -/
theorem enrichment_pro_counterexample :
    multiomics_init ["PRO"] env_no_hprd
      = Except.error
          "FileNotFoundError: external/HPRD_PPI/BINARY_PROTEIN_PROTEIN_INTERACTIONS.txt" :=
  rfl

/-- The environment `env_good` with every optional enrichment input of the
guarded branches missing. -/
def env_missing_enrich : Env :=
  { env_good with geneInfoExists := false, targetScanExists := false,
                  starBaseExists := false }

/-- A constructor state in which the GE attribute exists and no modality
table has been stored yet. -/
def s_ge : InitState := { data := [], geLoaded := true, diags := [] }

/-- Witness for the amended C4: the GE branch with a missing TargetScan
gene-info file stores the GE table and prints the diagnostic naming the
external directory. -/
theorem enrichment_missing_file_handling_witness :
    (["GE"] : List String).contains "GE" = true
    ∧ env_missing_enrich.geneInfoExists = false
    ∧ s_ge.data.lookup "GE" = none
    ∧ ((ge_step ["GE"] env_missing_enrich s_ge).data.lookup "GE"
          = some env_missing_enrich.geData
       ∧ ge_diag_msg env_missing_enrich.external_data_path
          ∈ (ge_step ["GE"] env_missing_enrich s_ge).diags) :=
  ⟨by decide, by rfl, by rfl,
   (enrichment_missing_file_handling env_missing_enrich ["GE"] s_ge).1
     (by decide) (by rfl) (by rfl)⟩

/-- Witness for C10: the default modality list contains WSI and the
construction fails on it. -/
theorem wsi_construction_fails_witness :
    "WSI" ∈ default_modalities
    ∧ ∃ e, multiomics_init default_modalities env_good = Except.error e :=
  ⟨by decide, wsi_construction_fails.1 default_modalities env_good (by decide)⟩
